import Mathlib

/-!
Verification of the Dragonfly FCB RC-receiver module
(`fcb-source/fcb/src/receiver.c`) against its natural-language
specification.

The C code is shallowly embedded: machine integers become `Nat` (with
explicit `% 2^16` / `% 2^32` where the C arithmetic wraps, and `Int` where
C performs the usual arithmetic conversions to `int`), struct types become
Lean structures keeping the source field names, and each C function of
interest becomes a pure Lean function from its inputs (including the
global state it reads) to its outputs (including the global state it
writes).

The repository sources do not include `receiver.h` / `common.h`, so the
numeric `#define` constants (valid pulse/period bounds, calibration
thresholds, etc.) and the helper `UInt16Mean` are modelled from the spec:
the constants are kept abstract as parameters in `ReceiverParams`, and
`UInt16Mean` is the arithmetic mean described in §4.4 of the spec.
-/

/-- Wrap an integer to the two's-complement `int16_t` range, as the C
conversion from a wider integer type to `int16_t` does on this target. -/
def toInt16 (n : Int) : Int :=
  (n + 32768) % 65536 - 32768

/-- Embedding of `GetSignedReceiverChannel` (receiver.c:913-926).
Inputs are the channel's `PulseTimerCount` and the calibration record's
`ChannelMinCount` / `ChannelMaxCount`, all `uint16_t` values.  The third
branch mirrors the C arithmetic: `PulseTimerCount - ChannelMinCount` is
exact (the first branch guarantees no borrow), the multiplication by
`UINT16_MAX` is performed in `uint32_t` (hence the `% 2^32`), and the
final `INT16_MIN + quotient` is converted to `int16_t`. -/
def GetSignedReceiverChannel (PulseTimerCount ChannelMinCount ChannelMaxCount : Nat) : Int :=
  if PulseTimerCount < ChannelMinCount then
    -32768
  else if ChannelMaxCount < PulseTimerCount then
    32767
  else if ChannelMinCount < ChannelMaxCount then
    toInt16 (-32768 +
      (((PulseTimerCount - ChannelMinCount) * 65535 % 4294967296 / (ChannelMaxCount - ChannelMinCount) : Nat) : Int))
  else
    0

lemma toInt16_eq_self {x : Int} (h1 : -32768 ≤ x) (h2 : x ≤ 32767) : toInt16 x = x := by
  unfold toInt16
  have hlo : (0 : Int) ≤ x + 32768 := by omega
  have hhi : x + 32768 < 65536 := by omega
  rw [Int.emod_eq_of_lt hlo hhi]
  omega

/-- In the interpolation branch the `uint32_t` intermediate product never
exceeds `2^32`, so the `% 2^32` is the identity. -/
lemma interp_product_lt {p minC maxC : Nat} (h1 : minC ≤ p) (h3 : p ≤ maxC)
    (hmax : maxC < 65536) : (p - minC) * 65535 < 4294967296 := by
  have hle : p - minC ≤ 65535 := by omega
  calc (p - minC) * 65535 ≤ 65535 * 65535 := Nat.mul_le_mul_right _ hle
    _ < 4294967296 := by norm_num

/-- In the interpolation branch the quotient is at most `65535`. -/
lemma interp_quot_le {p minC maxC : Nat} (hmm : minC < maxC) (h3 : p ≤ maxC) :
    (p - minC) * 65535 / (maxC - minC) ≤ 65535 := by
  have h : (p - minC) * 65535 ≤ (maxC - minC) * 65535 :=
    Nat.mul_le_mul_right _ (by omega)
  calc (p - minC) * 65535 / (maxC - minC)
      ≤ (maxC - minC) * 65535 / (maxC - minC) := Nat.div_le_div_right h
    _ = 65535 := Nat.mul_div_cancel_left _ (by omega)

/-- Closed form of `GetSignedReceiverChannel` on the interpolation branch:
for an in-range pulse the result is exactly
`INT16_MIN + (p - min) * 65535 / (max - min)` with no wraparound. -/
lemma getSigned_interp {p minC maxC : Nat} (hmm : minC < maxC) (hmax : maxC < 65536)
    (h1 : minC ≤ p) (h3 : p ≤ maxC) :
    GetSignedReceiverChannel p minC maxC =
      -32768 + (((p - minC) * 65535 / (maxC - minC) : Nat) : Int) := by
  unfold GetSignedReceiverChannel
  rw [if_neg (by omega), if_neg (by omega), if_pos hmm,
    Nat.mod_eq_of_lt (interp_product_lt h1 h3 hmax)]
  have hq := interp_quot_le hmm h3 (p := p)
  apply toInt16_eq_self
  · have : (0 : Int) ≤ (((p - minC) * 65535 / (maxC - minC) : Nat) : Int) := Int.ofNat_nonneg _
    omega
  · have : (((p - minC) * 65535 / (maxC - minC) : Nat) : Int) ≤ 65535 := by
      exact_mod_cast hq
    omega

/-- C1: for a calibration record with `ChannelMaxCount > ChannelMinCount`
and pulse widths inside `[ChannelMinCount, ChannelMaxCount]`, the
normalizer `GetSignedReceiverChannel` is monotonically non-decreasing in
the pulse width, returns exactly `INT16_MIN` at `ChannelMinCount`, and
returns exactly `INT16_MAX` at `ChannelMaxCount`. -/
theorem getSignedReceiverChannel_monotone_boundaries
    (p q minC maxC : Nat) (hmm : minC < maxC) (hmax : maxC < 65536)
    (h1 : minC ≤ p) (h2 : p ≤ q) (h3 : q ≤ maxC) :
    GetSignedReceiverChannel p minC maxC ≤ GetSignedReceiverChannel q minC maxC ∧
    GetSignedReceiverChannel minC minC maxC = -32768 ∧
    GetSignedReceiverChannel maxC minC maxC = 32767 := by
  refine ⟨?_, ?_, ?_⟩
  · rw [getSigned_interp hmm hmax h1 (le_trans h2 h3),
      getSigned_interp hmm hmax (le_trans h1 h2) h3]
    have hdiv : (p - minC) * 65535 / (maxC - minC) ≤ (q - minC) * 65535 / (maxC - minC) :=
      Nat.div_le_div_right (Nat.mul_le_mul_right _ (by omega))
    have : (((p - minC) * 65535 / (maxC - minC) : Nat) : Int)
        ≤ (((q - minC) * 65535 / (maxC - minC) : Nat) : Int) := by exact_mod_cast hdiv
    omega
  · rw [getSigned_interp hmm hmax (le_refl _) (le_of_lt hmm)]
    simp
  · rw [getSigned_interp hmm hmax (le_of_lt hmm) (le_refl _)]
    rw [Nat.mul_comm, Nat.mul_div_cancel _ (by omega)]
    norm_num

/-- Witness for C1 at a concrete calibration record and pulse pair. -/
theorem getSignedReceiverChannel_monotone_boundaries_witness :
    GetSignedReceiverChannel 1200 1000 2000 ≤ GetSignedReceiverChannel 1500 1000 2000 ∧
    GetSignedReceiverChannel 1000 1000 2000 = -32768 ∧
    GetSignedReceiverChannel 2000 1000 2000 = 32767 :=
  getSignedReceiverChannel_monotone_boundaries 1200 1500 1000 2000
    (by decide) (by decide) (by decide) (by decide) (by decide)

/-- C2 counterexample: with the degenerate record `min = 1000`, `max = 500`
(`min > max`) and pulse `600 > max`, the code returns `INT16_MIN`, not the
`INT16_MAX` the claim demands for every record with `p > ChannelMaxCount`:
the `p < ChannelMinCount` branch is tested first. -/
theorem getSignedReceiverChannel_saturation_counterexample :
    GetSignedReceiverChannel 600 1000 500 = -32768 ∧ 600 > 500 ∧
    ((-32768 : Int) ≠ 32767) := by
  refine ⟨by decide, by decide, by decide⟩

/-- C2 amended: `GetSignedReceiverChannel` returns `INT16_MIN` whenever
`p < ChannelMinCount`; it returns `INT16_MAX` whenever `p > ChannelMaxCount`
provided also `p ≥ ChannelMinCount` (the min-saturation test has priority);
and it returns `0` in the degenerate case
`ChannelMinCount ≤ p ≤ ChannelMaxCount` with
`ChannelMaxCount = ChannelMinCount`. -/
theorem getSignedReceiverChannel_saturation_amended (p minC maxC : Nat) :
    (p < minC → GetSignedReceiverChannel p minC maxC = -32768) ∧
    (minC ≤ p → maxC < p → GetSignedReceiverChannel p minC maxC = 32767) ∧
    (minC ≤ p → p ≤ maxC → maxC = minC → GetSignedReceiverChannel p minC maxC = 0) := by
  refine ⟨?_, ?_, ?_⟩
  · intro h
    unfold GetSignedReceiverChannel
    rw [if_pos h]
  · intro h1 h2
    unfold GetSignedReceiverChannel
    rw [if_neg (by omega), if_pos h2]
  · intro h1 h2 h3
    unfold GetSignedReceiverChannel
    rw [if_neg (by omega), if_neg (by omega), if_neg (by omega)]

/-- Witness for the amended C2 at concrete inputs covering all three cases. -/
theorem getSignedReceiverChannel_saturation_amended_witness :
    GetSignedReceiverChannel 400 1000 2000 = -32768 ∧
    GetSignedReceiverChannel 2500 1000 2000 = 32767 ∧
    GetSignedReceiverChannel 1500 1500 1500 = 0 :=
  ⟨(getSignedReceiverChannel_saturation_amended 400 1000 2000).1 (by decide),
   (getSignedReceiverChannel_saturation_amended 2500 1000 2000).2.1 (by decide) (by decide),
   (getSignedReceiverChannel_saturation_amended 1500 1500 1500).2.2 (by decide) (by decide) rfl⟩

/-- C10: for an in-range pulse with `ChannelMaxCount > ChannelMinCount`,
the intermediate `uint32_t` product of `GetSignedReceiverChannel` fits in
32 bits (the `% 2^32` is the identity), the value `INT16_MIN + quotient`
lies in `[-32768, 32767]`, and the function returns it without `int16_t`
wraparound. -/
theorem getSignedReceiverChannel_no_overflow
    (p minC maxC : Nat) (hmm : minC < maxC) (hmax : maxC < 65536)
    (h1 : minC ≤ p) (h3 : p ≤ maxC) :
    (p - minC) * 65535 < 4294967296 ∧
    (p - minC) * 65535 % 4294967296 = (p - minC) * 65535 ∧
    -32768 ≤ -32768 + (((p - minC) * 65535 / (maxC - minC) : Nat) : Int) ∧
    -32768 + (((p - minC) * 65535 / (maxC - minC) : Nat) : Int) ≤ 32767 ∧
    GetSignedReceiverChannel p minC maxC =
      -32768 + (((p - minC) * 65535 / (maxC - minC) : Nat) : Int) := by
  have hlt := interp_product_lt h1 h3 hmax
  have hq := interp_quot_le hmm h3 (p := p)
  have hqz : (0 : Int) ≤ (((p - minC) * 65535 / (maxC - minC) : Nat) : Int) := Int.ofNat_nonneg _
  have hqi : (((p - minC) * 65535 / (maxC - minC) : Nat) : Int) ≤ 65535 := by exact_mod_cast hq
  exact ⟨hlt, Nat.mod_eq_of_lt hlt, by omega, by omega, getSigned_interp hmm hmax h1 h3⟩

/-- Witness for C10 at a concrete in-range input. -/
theorem getSignedReceiverChannel_no_overflow_witness :
    (1500 - 1000) * 65535 < 4294967296 ∧
    (1500 - 1000) * 65535 % 4294967296 = (1500 - 1000) * 65535 ∧
    -32768 ≤ -32768 + (((1500 - 1000) * 65535 / (2000 - 1000) : Nat) : Int) ∧
    -32768 + (((1500 - 1000) * 65535 / (2000 - 1000) : Nat) : Int) ≤ 32767 ∧
    GetSignedReceiverChannel 1500 1000 2000 =
      -32768 + (((1500 - 1000) * 65535 / (2000 - 1000) : Nat) : Int) :=
  getSignedReceiverChannel_no_overflow 1500 1000 2000
    (by decide) (by decide) (by decide) (by decide)

/-- The wrapped difference of two `uint16_t` values as C computes it at
receiver.c:1214 and receiver.c:1391: the operands are promoted to `int`,
subtracted, and the (possibly negative) result is converted to `uint32_t`,
i.e. reduced modulo `2^32`. -/
def u16SubU32 (a b : Nat) : Nat :=
  (4294967296 + a - b) % 4294967296

/-- Embedding of the candidate inter-rising-edge period computation in
`UpdateReceiverChannel` (receiver.c:1209-1214).  `rising` and `prevRising`
are the current and previous rising-edge capture values (`uint16_t`),
`pc` / `prevPC` the current period-counter value and the one snapshotted at
the previous rising edge.  When the counter has advanced, the C code adds
`UINT16_MAX` (65535) once plus `UINT16_MAX` per further elapsed period;
the result is stored in a `uint32_t`, hence the `% 2^32`.  Otherwise it is
the raw difference of the two capture values, wrapped as a `uint32_t`. -/
def tempPeriodTimerCount (rising prevRising pc prevPC : Nat) : Nat :=
  if prevPC < pc then
    (rising + 65535 - prevRising + 65535 * (pc - prevPC - 1)) % 4294967296
  else
    u16SubU32 rising prevRising

/-- C3: the code's period computation at a concrete rising edge with
period-counter delta 1 (`rising = 100`, `prevRising = 50`): the code adds
`UINT16_MAX = 65535` for the wrapped counter period and yields `65585`,
while the specified formula `rising + 65536 - prevRising + 65536*(delta-1)`
(the true elapsed tick count for a 16-bit counter that wraps every `65536`
ticks) yields `65586`. -/
theorem tempPeriodTimerCount_unwrap_code_bug :
    tempPeriodTimerCount 100 50 1 0 = 65585 ∧
    100 + 65536 - 50 + 65536 * (1 - 0 - 1) = 65586 ∧
    (65585 : Nat) ≠ 65586 := by
  refine ⟨by decide, by decide, by decide⟩

/-- C4 counterexample: on a same-period rising edge (`delta = 0`) with
`rising = 10 < prevRising = 20`, the code computes `2^32 - 10 = 4294967286`
(the `uint16_t` operands are subtracted as `int` and the negative result is
converted to `uint32_t`), not the 16-bit wrapped difference
`(10 - 20) mod 2^16 = 65526` that the claim states. -/
theorem tempPeriodTimerCount_sameperiod_counterexample :
    tempPeriodTimerCount 10 20 0 0 = 4294967286 ∧
    (10 + 65536 - 20) % 65536 = 65526 ∧
    (4294967286 : Nat) ≠ 65526 := by
  refine ⟨by decide, by decide, by decide⟩

/-- C4 amended: on a rising edge where the period counter has not advanced,
the decoder computes the candidate period as the difference
`rising - prevRising` with no overflow-unwrap term, taken with 32-bit (not
16-bit) wraparound: the computation is total, always yields a value below
`2^32`, equals the plain difference when `rising ≥ prevRising`, and equals
`2^32 - (prevRising - rising)` when `rising < prevRising` — in particular
it never crashes or traps on the subtraction. -/
theorem tempPeriodTimerCount_sameperiod_amended
    (rising prevRising pc prevPC : Nat)
    (hpc : ¬ prevPC < pc) (hr : rising < 65536) (hp : prevRising < 65536) :
    tempPeriodTimerCount rising prevRising pc prevPC = u16SubU32 rising prevRising ∧
    tempPeriodTimerCount rising prevRising pc prevPC < 4294967296 ∧
    (prevRising ≤ rising →
      tempPeriodTimerCount rising prevRising pc prevPC = rising - prevRising) ∧
    (rising < prevRising →
      tempPeriodTimerCount rising prevRising pc prevPC = 4294967296 - (prevRising - rising)) := by
  unfold tempPeriodTimerCount
  rw [if_neg hpc]
  unfold u16SubU32
  refine ⟨rfl, Nat.mod_lt _ (by norm_num), ?_, ?_⟩
  · intro h
    omega
  · intro h
    have : 4294967296 + rising - prevRising < 4294967296 := by omega
    rw [Nat.mod_eq_of_lt this]
    omega

/-- Witness for the amended C4, covering both the in-order and the wrapped
subtraction at concrete inputs. -/
theorem tempPeriodTimerCount_sameperiod_amended_witness :
    tempPeriodTimerCount 10 20 3 3 = u16SubU32 10 20 ∧
    tempPeriodTimerCount 10 20 3 3 < 4294967296 ∧
    tempPeriodTimerCount 10 20 3 3 = 4294967296 - (20 - 10) :=
  ⟨(tempPeriodTimerCount_sameperiod_amended 10 20 3 3 (by decide) (by decide) (by decide)).1,
   (tempPeriodTimerCount_sameperiod_amended 10 20 3 3 (by decide) (by decide) (by decide)).2.1,
   (tempPeriodTimerCount_sameperiod_amended 10 20 3 3 (by decide) (by decide) (by decide)).2.2.2
     (by decide)⟩

/-! ### List helper lemmas for the calibration sampling buffers -/

lemma list_getq_set_ne : ∀ (l : List Nat) (i v j : Nat), j ≠ i → (l.set i v)[j]? = l[j]?
  | [], _, _, _, _ => rfl
  | _ :: _, 0, _, 0, h => absurd rfl h
  | _ :: _, 0, _, _ + 1, _ => by simp [List.set]
  | _ :: _, _ + 1, _, 0, _ => by simp [List.set]
  | _ :: xs, i + 1, v, j + 1, h => by
    simp only [List.set, List.getElem?_cons_succ]
    exact list_getq_set_ne xs i v j (by omega)

lemma list_getq_set_self : ∀ (l : List Nat) (i v : Nat), i < l.length → (l.set i v)[i]? = some v
  | [], _, _, h => absurd h (by simp)
  | _ :: _, 0, _, _ => by simp [List.set]
  | _ :: xs, i + 1, v, h => by
    simp only [List.set, List.getElem?_cons_succ]
    exact list_getq_set_self xs i v (by simpa using h)

lemma list_mem_of_set : ∀ (l : List Nat) (i v x : Nat), x ∈ l.set i v → x = v ∨ x ∈ l
  | [], _, _, _, h => by simp [List.set] at h
  | y :: ys, 0, v, x, h => by
    simp only [List.set, List.mem_cons] at h
    rcases h with h | h
    · exact Or.inl h
    · exact Or.inr (List.mem_cons_of_mem _ h)
  | y :: ys, i + 1, v, x, h => by
    simp only [List.set, List.mem_cons] at h
    rcases h with h | h
    · exact Or.inr (h ▸ List.mem_cons_self _ _)
    · rcases list_mem_of_set ys i v x h with h | h
      · exact Or.inl h
      · exact Or.inr (List.mem_cons_of_mem _ h)

lemma list_mem_of_getq : ∀ (l : List Nat) (j x : Nat), l[j]? = some x → x ∈ l
  | [], _, _, h => by simp at h
  | y :: ys, 0, x, h => by
    simp only [List.getElem?_cons_zero, Option.some.injEq] at h
    exact h ▸ List.mem_cons_self _ _
  | y :: ys, j + 1, x, h =>
    List.mem_cons_of_mem _ (list_mem_of_getq ys j x (by simpa using h))

lemma list_getq_of_lt : ∀ (l : List Nat) (j : Nat), j < l.length → ∃ x, l[j]? = some x
  | [], _, h => absurd h (by simp)
  | y :: _, 0, _ => ⟨y, by simp⟩
  | _ :: ys, j + 1, h => by
    simp only [List.getElem?_cons_succ]
    exact list_getq_of_lt ys j (by simpa using h)

lemma foldl_min_le_init : ∀ (l : List Nat) (a : Nat), l.foldl min a ≤ a
  | [], a => le_refl a
  | x :: xs, a =>
    le_trans (foldl_min_le_init xs (min a x)) (min_le_left a x)

lemma foldl_min_le_mem : ∀ (l : List Nat) (a x : Nat), x ∈ l → l.foldl min a ≤ x
  | [], _, _, h => absurd h (by simp)
  | y :: ys, a, x, h => by
    rw [List.foldl_cons]
    rcases List.mem_cons.mp h with h | h
    · subst h
      exact le_trans (foldl_min_le_init ys (min a x)) (min_le_right a x)
    · exact foldl_min_le_mem ys (min a y) x h

lemma le_foldl_min : ∀ (l : List Nat) (a m : Nat), m ≤ a → (∀ x ∈ l, m ≤ x) → m ≤ l.foldl min a
  | [], _, _, h, _ => h
  | y :: ys, a, m, h, hall =>
    le_foldl_min ys (min a y) m (le_min h (hall y (List.mem_cons_self y ys)))
      (fun x hx => hall x (List.mem_cons_of_mem _ hx))

lemma init_le_foldl_max : ∀ (l : List Nat) (a : Nat), a ≤ l.foldl max a
  | [], a => le_refl a
  | x :: xs, a =>
    le_trans (le_max_left a x) (init_le_foldl_max xs (max a x))

lemma mem_le_foldl_max : ∀ (l : List Nat) (a x : Nat), x ∈ l → x ≤ l.foldl max a
  | [], _, _, h => absurd h (by simp)
  | y :: ys, a, x, h => by
    rw [List.foldl_cons]
    rcases List.mem_cons.mp h with h | h
    · subst h
      exact le_trans (le_max_right a x) (init_le_foldl_max ys (max a x))
    · exact mem_le_foldl_max ys (max a y) x h

lemma foldl_max_le : ∀ (l : List Nat) (a m : Nat), a ≤ m → (∀ x ∈ l, x ≤ m) → l.foldl max a ≤ m
  | [], _, _, h, _ => h
  | y :: ys, a, m, h, hall =>
    foldl_max_le ys (max a y) m (max_le h (hall y (List.mem_cons_self y ys)))
      (fun x hx => hall x (List.mem_cons_of_mem _ hx))

/-- Minimum of a sample buffer, computed the way the rescan loop at
receiver.c:1276-1282 computes it: a running fold starting from the
sentinel `0xFFFF` (every `uint16_t` element is `≤ 0xFFFF`). -/
def bufMinFold (l : List Nat) : Nat := l.foldl min 65535

/-- Maximum of a sample buffer, matching the rescan loop at
receiver.c:1294-1300 starting from the sentinel `0`. -/
def bufMaxFold (l : List Nat) : Nat := l.foldl max 0

/-- Embedding of the rescan loop of `UpdateChannelCalibrationSamples` over
the max-samples buffer (receiver.c:1276-1282): a running minimum starting
from the cached `tmpMaxBufferMinValue`, recording the index of the last
strict decrease and clearing `maxBufferUpdated` whenever one occurs. -/
def scanMin : List Nat → Nat → Nat → Nat → Bool → Nat × Nat × Bool
  | [], tmp, _, idx, upd => (tmp, idx, upd)
  | v :: rest, tmp, i, idx, upd =>
    if v < tmp then scanMin rest v (i + 1) i false
    else scanMin rest tmp (i + 1) idx upd

/-- Embedding of the rescan loop over the min-samples buffer
(receiver.c:1294-1300): a running maximum starting from the cached
`tmpMinBufferMaxValue`. -/
def scanMax : List Nat → Nat → Nat → Nat → Bool → Nat × Nat × Bool
  | [], tmp, _, idx, upd => (tmp, idx, upd)
  | v :: rest, tmp, i, idx, upd =>
    if tmp < v then scanMax rest v (i + 1) i false
    else scanMax rest tmp (i + 1) idx upd

lemma scanMin_fst : ∀ (l : List Nat) (tmp i idx : Nat) (upd : Bool),
    (scanMin l tmp i idx upd).1 = l.foldl min tmp
  | [], _, _, _, _ => rfl
  | v :: rest, tmp, i, idx, upd => by
    simp only [scanMin, List.foldl_cons]
    by_cases h : v < tmp
    · rw [if_pos h, scanMin_fst, min_eq_right (le_of_lt h)]
    · rw [if_neg h, scanMin_fst, min_eq_left (le_of_not_lt h)]

lemma scanMax_fst : ∀ (l : List Nat) (tmp i idx : Nat) (upd : Bool),
    (scanMax l tmp i idx upd).1 = l.foldl max tmp
  | [], _, _, _, _ => rfl
  | v :: rest, tmp, i, idx, upd => by
    simp only [scanMax, List.foldl_cons]
    by_cases h : tmp < v
    · rw [if_pos h, scanMax_fst, max_eq_right (le_of_lt h)]
    · rw [if_neg h, scanMax_fst, max_eq_left (le_of_not_lt h)]

lemma scanMin_spec : ∀ (l : List Nat) (tmp i idx : Nat) (upd : Bool),
    scanMin l tmp i idx upd = (tmp, idx, upd) ∨
    ∃ j, j < l.length ∧ (scanMin l tmp i idx upd).2.1 = i + j ∧
      l[j]? = some (scanMin l tmp i idx upd).1 ∧ (scanMin l tmp i idx upd).2.2 = false
  | [], _, _, _, _ => Or.inl rfl
  | v :: rest, tmp, i, idx, upd => by
    simp only [scanMin]
    by_cases h : v < tmp
    · rw [if_pos h]
      rcases scanMin_spec rest v (i + 1) i false with h2 | ⟨j, hj, hidx, hget, hupd⟩
      · rw [h2]
        exact Or.inr ⟨0, by simp, by simp, by simp, rfl⟩
      · refine Or.inr ⟨j + 1, by simpa using hj, by omega, ?_, hupd⟩
        simpa using hget
    · rw [if_neg h]
      rcases scanMin_spec rest tmp (i + 1) idx upd with h2 | ⟨j, hj, hidx, hget, hupd⟩
      · exact Or.inl h2
      · refine Or.inr ⟨j + 1, by simpa using hj, by omega, ?_, hupd⟩
        simpa using hget

lemma scanMax_spec : ∀ (l : List Nat) (tmp i idx : Nat) (upd : Bool),
    scanMax l tmp i idx upd = (tmp, idx, upd) ∨
    ∃ j, j < l.length ∧ (scanMax l tmp i idx upd).2.1 = i + j ∧
      l[j]? = some (scanMax l tmp i idx upd).1 ∧ (scanMax l tmp i idx upd).2.2 = false
  | [], _, _, _, _ => Or.inl rfl
  | v :: rest, tmp, i, idx, upd => by
    simp only [scanMax]
    by_cases h : tmp < v
    · rw [if_pos h]
      rcases scanMax_spec rest v (i + 1) i false with h2 | ⟨j, hj, hidx, hget, hupd⟩
      · rw [h2]
        exact Or.inr ⟨0, by simp, by simp, by simp, rfl⟩
      · refine Or.inr ⟨j + 1, by simpa using hj, by omega, ?_, hupd⟩
        simpa using hget
    · rw [if_neg h]
      rcases scanMax_spec rest tmp (i + 1) idx upd with h2 | ⟨j, hj, hidx, hget, hupd⟩
      · exact Or.inl h2
      · refine Or.inr ⟨j + 1, by simpa using hj, by omega, ?_, hupd⟩
        simpa using hget

/-- The cached-minimum state of the max-samples buffer after the
(conditional) rescan at receiver.c:1275-1283: the rescan runs only when
`maxBufferUpdated` is set. -/
def maxSideScan (buf : List Nat) (tmp idx : Nat) (upd : Bool) : Nat × Nat × Bool :=
  if upd then scanMin buf tmp 0 idx upd else (tmp, idx, upd)

/-- The max-samples half of `UpdateChannelCalibrationSamples`
(receiver.c:1275-1290): after the conditional rescan, if the pulse exceeds
the cached minimum of the max buffer, that slot is overwritten, the cache
is reset to the sentinel `0xFFFF` and `maxBufferUpdated` is set. -/
def updateMaxSide (buf : List Nat) (tmp idx : Nat) (upd : Bool) (pulse : Nat) :
    List Nat × Nat × Nat × Bool :=
  if (maxSideScan buf tmp idx upd).1 < pulse then
    (buf.set (maxSideScan buf tmp idx upd).2.1 pulse, 65535,
      (maxSideScan buf tmp idx upd).2.1, true)
  else
    (buf, (maxSideScan buf tmp idx upd).1, (maxSideScan buf tmp idx upd).2.1,
      (maxSideScan buf tmp idx upd).2.2)

/-- The cached-maximum state of the min-samples buffer after the
(conditional) rescan at receiver.c:1293-1301. -/
def minSideScan (buf : List Nat) (tmp idx : Nat) (upd : Bool) : Nat × Nat × Bool :=
  if upd then scanMax buf tmp 0 idx upd else (tmp, idx, upd)

/-- The min-samples half of `UpdateChannelCalibrationSamples`
(receiver.c:1293-1308): if the pulse is below the cached maximum of the
min buffer, that slot is overwritten, the cache is reset to the sentinel
`0` and `minBufferUpdated` is set. -/
def updateMinSide (buf : List Nat) (tmp idx : Nat) (upd : Bool) (pulse : Nat) :
    List Nat × Nat × Nat × Bool :=
  if pulse < (minSideScan buf tmp idx upd).1 then
    (buf.set (minSideScan buf tmp idx upd).2.1 pulse, 0,
      (minSideScan buf tmp idx upd).2.1, true)
  else
    (buf, (minSideScan buf tmp idx upd).1, (minSideScan buf tmp idx upd).2.1,
      (minSideScan buf tmp idx upd).2.2)

/-- Invariant of the max-samples cache: the cached index is in range, the
buffer holds `uint16_t` values, the cache equals the sentinel while a
rescan is pending (`maxBufferUpdated`), and otherwise it is exactly the
buffer minimum, held at the cached slot. -/
def MaxSideInv (buf : List Nat) (tmp idx : Nat) (upd : Bool) : Prop :=
  idx < buf.length ∧ (∀ x ∈ buf, x < 65536) ∧
  (upd = true → tmp = 65535) ∧
  (upd = false → tmp = bufMinFold buf ∧ buf[idx]? = some tmp)

/-- Invariant of the min-samples cache, symmetric to `MaxSideInv` with the
sentinel `0` and the buffer maximum. -/
def MinSideInv (buf : List Nat) (tmp idx : Nat) (upd : Bool) : Prop :=
  idx < buf.length ∧ (∀ x ∈ buf, x < 65536) ∧
  (upd = true → tmp = 0) ∧
  (upd = false → tmp = bufMaxFold buf ∧ buf[idx]? = some tmp)

lemma maxSideScan_spec (buf : List Nat) (tmp idx : Nat) (upd : Bool)
    (hinv : MaxSideInv buf tmp idx upd) :
    (maxSideScan buf tmp idx upd).1 = bufMinFold buf ∧
    (maxSideScan buf tmp idx upd).2.1 < buf.length ∧
    buf[(maxSideScan buf tmp idx upd).2.1]? = some (maxSideScan buf tmp idx upd).1 ∧
    ((maxSideScan buf tmp idx upd).2.2 = true → (maxSideScan buf tmp idx upd).1 = 65535) := by
  obtain ⟨hidx, hb, ht, hf⟩ := hinv
  cases upd with
  | false =>
    obtain ⟨h1, h2⟩ := hf rfl
    unfold maxSideScan
    rw [if_neg (by simp)]
    exact ⟨h1, hidx, h2, fun h => nomatch h⟩
  | true =>
    have htmp : tmp = 65535 := ht rfl
    unfold maxSideScan
    rw [if_pos rfl]
    have hfst : (scanMin buf tmp 0 idx true).1 = bufMinFold buf := by
      rw [scanMin_fst, htmp]
      rfl
    rcases scanMin_spec buf tmp 0 idx true with heq | ⟨j, hj, hidx2, hget, hupd⟩
    · rw [heq] at hfst ⊢
      obtain ⟨v, hv⟩ := list_getq_of_lt buf idx hidx
      have hvmem := list_mem_of_getq buf idx v hv
      have hvle : v ≤ 65535 := by have := hb v hvmem; omega
      have hge : bufMinFold buf ≤ v := foldl_min_le_mem buf 65535 v hvmem
      have hv65535 : v = 65535 := by
        have : tmp = bufMinFold buf := hfst
        omega
      exact ⟨hfst, hidx, by rw [hv, hv65535, ← htmp], fun _ => htmp⟩
    · refine ⟨hfst, ?_, ?_, fun h => absurd h (by simp [hupd])⟩
      · omega
      · rw [hidx2]
        simpa using hget

lemma minSideScan_spec (buf : List Nat) (tmp idx : Nat) (upd : Bool)
    (hinv : MinSideInv buf tmp idx upd) :
    (minSideScan buf tmp idx upd).1 = bufMaxFold buf ∧
    (minSideScan buf tmp idx upd).2.1 < buf.length ∧
    buf[(minSideScan buf tmp idx upd).2.1]? = some (minSideScan buf tmp idx upd).1 ∧
    ((minSideScan buf tmp idx upd).2.2 = true → (minSideScan buf tmp idx upd).1 = 0) := by
  obtain ⟨hidx, hb, ht, hf⟩ := hinv
  cases upd with
  | false =>
    obtain ⟨h1, h2⟩ := hf rfl
    unfold minSideScan
    rw [if_neg (by simp)]
    exact ⟨h1, hidx, h2, fun h => nomatch h⟩
  | true =>
    have htmp : tmp = 0 := ht rfl
    unfold minSideScan
    rw [if_pos rfl]
    have hfst : (scanMax buf tmp 0 idx true).1 = bufMaxFold buf := by
      rw [scanMax_fst, htmp]
      rfl
    rcases scanMax_spec buf tmp 0 idx true with heq | ⟨j, hj, hidx2, hget, hupd⟩
    · rw [heq] at hfst ⊢
      obtain ⟨v, hv⟩ := list_getq_of_lt buf idx hidx
      have hvmem := list_mem_of_getq buf idx v hv
      have hle : v ≤ bufMaxFold buf := mem_le_foldl_max buf 0 v hvmem
      have hv0 : v = 0 := by
        have : tmp = bufMaxFold buf := hfst
        omega
      exact ⟨hfst, hidx, by rw [hv, hv0, ← htmp], fun _ => htmp⟩
    · refine ⟨hfst, ?_, ?_, fun h => absurd h (by simp [hupd])⟩
      · omega
      · rw [hidx2]
        simpa using hget

lemma updateMaxSide_spec (buf : List Nat) (tmp idx : Nat) (upd : Bool) (pulse : Nat)
    (hinv : MaxSideInv buf tmp idx upd) (hp : pulse < 65536) :
    (∃ j : Nat, ∀ i : Nat, i ≠ j → (updateMaxSide buf tmp idx upd pulse).1[i]? = buf[i]?) ∧
    ((updateMaxSide buf tmp idx upd pulse).1 ≠ buf → bufMinFold buf < pulse) ∧
    bufMinFold buf ≤ bufMinFold (updateMaxSide buf tmp idx upd pulse).1 ∧
    MaxSideInv (updateMaxSide buf tmp idx upd pulse).1
      (updateMaxSide buf tmp idx upd pulse).2.1
      (updateMaxSide buf tmp idx upd pulse).2.2.1
      (updateMaxSide buf tmp idx upd pulse).2.2.2 := by
  obtain ⟨hs1, hs2, hs3, hs4⟩ := maxSideScan_spec buf tmp idx upd hinv
  obtain ⟨hidx, hb, -, -⟩ := hinv
  unfold updateMaxSide
  by_cases hcmp : (maxSideScan buf tmp idx upd).1 < pulse
  · rw [if_pos hcmp]
    have hmin : bufMinFold buf < pulse := hs1 ▸ hcmp
    refine ⟨⟨(maxSideScan buf tmp idx upd).2.1,
      fun i hi => list_getq_set_ne buf _ pulse i hi⟩, fun _ => hmin, ?_, ?_, ?_, ?_, ?_⟩
    · unfold bufMinFold
      refine le_foldl_min _ 65535 _ (foldl_min_le_init buf 65535) ?_
      intro x hx
      rcases list_mem_of_set buf _ pulse x hx with h | h
      · exact h ▸ le_of_lt hmin
      · exact foldl_min_le_mem buf 65535 x h
    · rw [List.length_set]
      exact hs2
    · intro x hx
      rcases list_mem_of_set buf _ pulse x hx with h | h
      · exact h ▸ hp
      · exact hb x h
    · exact fun _ => rfl
    · exact fun h => nomatch h
  · rw [if_neg hcmp]
    refine ⟨⟨0, fun i _ => ?_⟩, fun h => absurd rfl h, le_refl _,
      hs2, hb, hs4, fun _ => ⟨hs1, hs3⟩⟩
    rfl

lemma updateMinSide_spec (buf : List Nat) (tmp idx : Nat) (upd : Bool) (pulse : Nat)
    (hinv : MinSideInv buf tmp idx upd) (hp : pulse < 65536) :
    (∃ j : Nat, ∀ i : Nat, i ≠ j → (updateMinSide buf tmp idx upd pulse).1[i]? = buf[i]?) ∧
    ((updateMinSide buf tmp idx upd pulse).1 ≠ buf → pulse < bufMaxFold buf) ∧
    bufMaxFold (updateMinSide buf tmp idx upd pulse).1 ≤ bufMaxFold buf ∧
    MinSideInv (updateMinSide buf tmp idx upd pulse).1
      (updateMinSide buf tmp idx upd pulse).2.1
      (updateMinSide buf tmp idx upd pulse).2.2.1
      (updateMinSide buf tmp idx upd pulse).2.2.2 := by
  obtain ⟨hs1, hs2, hs3, hs4⟩ := minSideScan_spec buf tmp idx upd hinv
  obtain ⟨hidx, hb, -, -⟩ := hinv
  unfold updateMinSide
  by_cases hcmp : pulse < (minSideScan buf tmp idx upd).1
  · rw [if_pos hcmp]
    have hmax : pulse < bufMaxFold buf := hs1 ▸ hcmp
    refine ⟨⟨(minSideScan buf tmp idx upd).2.1,
      fun i hi => list_getq_set_ne buf _ pulse i hi⟩, fun _ => hmax, ?_, ?_, ?_, ?_, ?_⟩
    · unfold bufMaxFold
      refine foldl_max_le _ 0 _ (Nat.zero_le _) ?_
      intro x hx
      rcases list_mem_of_set buf _ pulse x hx with h | h
      · exact h ▸ le_of_lt hmax
      · exact mem_le_foldl_max buf 0 x h
    · rw [List.length_set]
      exact hs2
    · intro x hx
      rcases list_mem_of_set buf _ pulse x hx with h | h
      · exact h ▸ hp
      · exact hb x h
    · exact fun _ => rfl
    · exact fun h => nomatch h
  · rw [if_neg hcmp]
    refine ⟨⟨0, fun i _ => ?_⟩, fun h => absurd rfl h, le_refl _,
      hs2, hb, hs4, fun _ => ⟨hs1, hs3⟩⟩
    rfl

/-- Embedding of `Receiver_ChannelCalibrationSampling_TypeDef`
(receiver.c:82-92).  The fixed-size `uint16_t` arrays become lists whose
length is the buffer-size constant. -/
structure Receiver_ChannelCalibrationSampling where
  maxSamplesBuffer : List Nat
  minSamplesBuffer : List Nat
  channelCalibrationPulseSamples : Nat
  tmpMaxIndex : Nat
  tmpMaxBufferMinValue : Nat
  tmpMinIndex : Nat
  tmpMinBufferMaxValue : Nat
  maxBufferUpdated : Bool
  minBufferUpdated : Bool
deriving DecidableEq

/-- Embedding of `UpdateChannelCalibrationSamples` (receiver.c:1269-1314):
the max-side rescan/replace, the min-side rescan/replace, and the
unconditional increment of the `uint16_t` accepted-sample counter. -/
def UpdateChannelCalibrationSamples (s : Receiver_ChannelCalibrationSampling)
    (channelPulseTimerCount : Nat) : Receiver_ChannelCalibrationSampling :=
  { maxSamplesBuffer :=
      (updateMaxSide s.maxSamplesBuffer s.tmpMaxBufferMinValue s.tmpMaxIndex
        s.maxBufferUpdated channelPulseTimerCount).1,
    tmpMaxBufferMinValue :=
      (updateMaxSide s.maxSamplesBuffer s.tmpMaxBufferMinValue s.tmpMaxIndex
        s.maxBufferUpdated channelPulseTimerCount).2.1,
    tmpMaxIndex :=
      (updateMaxSide s.maxSamplesBuffer s.tmpMaxBufferMinValue s.tmpMaxIndex
        s.maxBufferUpdated channelPulseTimerCount).2.2.1,
    maxBufferUpdated :=
      (updateMaxSide s.maxSamplesBuffer s.tmpMaxBufferMinValue s.tmpMaxIndex
        s.maxBufferUpdated channelPulseTimerCount).2.2.2,
    minSamplesBuffer :=
      (updateMinSide s.minSamplesBuffer s.tmpMinBufferMaxValue s.tmpMinIndex
        s.minBufferUpdated channelPulseTimerCount).1,
    tmpMinBufferMaxValue :=
      (updateMinSide s.minSamplesBuffer s.tmpMinBufferMaxValue s.tmpMinIndex
        s.minBufferUpdated channelPulseTimerCount).2.1,
    tmpMinIndex :=
      (updateMinSide s.minSamplesBuffer s.tmpMinBufferMaxValue s.tmpMinIndex
        s.minBufferUpdated channelPulseTimerCount).2.2.1,
    minBufferUpdated :=
      (updateMinSide s.minSamplesBuffer s.tmpMinBufferMaxValue s.tmpMinIndex
        s.minBufferUpdated channelPulseTimerCount).2.2.2,
    channelCalibrationPulseSamples := (s.channelCalibrationPulseSamples + 1) % 65536 }

/-- Embedding of `ResetCalibrationSampling` (receiver.c:1521-1535),
parameterized by `RECEIVER_CALIBRATION_SAMPLES_BUFFER_SIZE` and
`RECEIVER_CALIBRATION_BUFFER_INIT_VALUE` (both defined in the absent
`receiver.h`). -/
def ResetCalibrationSampling (bufferSize initValue : Nat) :
    Receiver_ChannelCalibrationSampling :=
  { maxSamplesBuffer := List.replicate bufferSize initValue,
    minSamplesBuffer := List.replicate bufferSize initValue,
    channelCalibrationPulseSamples := 0,
    tmpMaxIndex := 0,
    tmpMaxBufferMinValue := initValue,
    tmpMinIndex := 0,
    tmpMinBufferMaxValue := initValue,
    maxBufferUpdated := false,
    minBufferUpdated := false }

/-- Combined cache invariant of a channel's calibration sampling window. -/
def SamplingInv (s : Receiver_ChannelCalibrationSampling) : Prop :=
  MaxSideInv s.maxSamplesBuffer s.tmpMaxBufferMinValue s.tmpMaxIndex s.maxBufferUpdated ∧
  MinSideInv s.minSamplesBuffer s.tmpMinBufferMaxValue s.tmpMinIndex s.minBufferUpdated

lemma samplingInv_reset (bufferSize initValue : Nat)
    (hN : 0 < bufferSize) (hI : initValue < 65536) :
    SamplingInv (ResetCalibrationSampling bufferSize initValue) := by
  have hmem : initValue ∈ List.replicate bufferSize initValue :=
    List.mem_replicate.mpr ⟨by omega, rfl⟩
  have hall : ∀ x ∈ List.replicate bufferSize initValue, x < 65536 := by
    intro x hx
    rw [List.eq_of_mem_replicate hx]
    exact hI
  have hget : (List.replicate bufferSize initValue)[0]? = some initValue := by
    cases bufferSize with
    | zero => omega
    | succ n => simp [List.replicate_succ]
  have hlen : 0 < (List.replicate bufferSize initValue).length := by
    simpa using hN
  have hminf : initValue = bufMinFold (List.replicate bufferSize initValue) := by
    unfold bufMinFold
    exact le_antisymm
      (le_foldl_min _ 65535 _ (by omega) (fun x hx => le_of_eq (List.eq_of_mem_replicate hx).symm))
      (foldl_min_le_mem _ 65535 _ hmem)
  have hmaxf : initValue = bufMaxFold (List.replicate bufferSize initValue) := by
    unfold bufMaxFold
    exact le_antisymm (mem_le_foldl_max _ 0 _ hmem)
      (foldl_max_le _ 0 _ (Nat.zero_le _) (fun x hx => le_of_eq (List.eq_of_mem_replicate hx)))
  have hmax : MaxSideInv (List.replicate bufferSize initValue) initValue 0 false :=
    ⟨hlen, ⟨hall, ⟨fun h => absurd h Bool.false_ne_true, fun _ => ⟨hminf, hget⟩⟩⟩⟩
  have hmin : MinSideInv (List.replicate bufferSize initValue) initValue 0 false :=
    ⟨hlen, ⟨hall, ⟨fun h => absurd h Bool.false_ne_true, fun _ => ⟨hmaxf, hget⟩⟩⟩⟩
  exact ⟨hmax, hmin⟩

/-- C6: under the sampling-cache invariant (established by
`ResetCalibrationSampling` and preserved by every call), one call to
`UpdateChannelCalibrationSamples` writes at most one slot of
`maxSamplesBuffer` and at most one slot of `minSamplesBuffer`; the max
buffer changes only if the pulse strictly exceeds the current minimum of
`maxSamplesBuffer` and the min buffer only if the pulse is strictly below
the current maximum of `minSamplesBuffer`; consequently the minimum of the
max buffer never decreases and the maximum of the min buffer never
increases, and the invariant carries across observations. -/
theorem updateChannelCalibrationSamples_extrema
    (s : Receiver_ChannelCalibrationSampling) (pulse bufferSize initValue : Nat)
    (hinv : SamplingInv s) (hp : pulse < 65536)
    (hN : 0 < bufferSize) (hI : initValue < 65536) :
    (∃ j : Nat, ∀ i : Nat, i ≠ j →
      (UpdateChannelCalibrationSamples s pulse).maxSamplesBuffer[i]? = s.maxSamplesBuffer[i]?) ∧
    (∃ j : Nat, ∀ i : Nat, i ≠ j →
      (UpdateChannelCalibrationSamples s pulse).minSamplesBuffer[i]? = s.minSamplesBuffer[i]?) ∧
    ((UpdateChannelCalibrationSamples s pulse).maxSamplesBuffer ≠ s.maxSamplesBuffer →
      bufMinFold s.maxSamplesBuffer < pulse) ∧
    ((UpdateChannelCalibrationSamples s pulse).minSamplesBuffer ≠ s.minSamplesBuffer →
      pulse < bufMaxFold s.minSamplesBuffer) ∧
    bufMinFold s.maxSamplesBuffer ≤
      bufMinFold (UpdateChannelCalibrationSamples s pulse).maxSamplesBuffer ∧
    bufMaxFold (UpdateChannelCalibrationSamples s pulse).minSamplesBuffer ≤
      bufMaxFold s.minSamplesBuffer ∧
    SamplingInv (UpdateChannelCalibrationSamples s pulse) ∧
    SamplingInv (ResetCalibrationSampling bufferSize initValue) := by
  obtain ⟨hmax, hmin⟩ := hinv
  obtain ⟨hA, hB, hC, hD⟩ := updateMaxSide_spec s.maxSamplesBuffer s.tmpMaxBufferMinValue
    s.tmpMaxIndex s.maxBufferUpdated pulse hmax hp
  obtain ⟨hE, hF, hG, hH⟩ := updateMinSide_spec s.minSamplesBuffer s.tmpMinBufferMaxValue
    s.tmpMinIndex s.minBufferUpdated pulse hmin hp
  exact ⟨hA, hE, hB, hF, hC, hG, ⟨hD, hH⟩, samplingInv_reset _ _ hN hI⟩

/-- Witness for C6 on a freshly reset two-slot window receiving pulse
`1600`: the minimum of the max buffer does not decrease and the invariant
is preserved. -/
theorem updateChannelCalibrationSamples_extrema_witness :
    bufMinFold (ResetCalibrationSampling 2 1500).maxSamplesBuffer ≤
      bufMinFold (UpdateChannelCalibrationSamples
        (ResetCalibrationSampling 2 1500) 1600).maxSamplesBuffer ∧
    SamplingInv (UpdateChannelCalibrationSamples (ResetCalibrationSampling 2 1500) 1600) :=
  ⟨(updateChannelCalibrationSamples_extrema (ResetCalibrationSampling 2 1500) 1600 2 1500
      (samplingInv_reset 2 1500 (by decide) (by decide))
      (by decide) (by decide) (by decide)).2.2.2.2.1,
   (updateChannelCalibrationSamples_extrema (ResetCalibrationSampling 2 1500) 1600 2 1500
      (samplingInv_reset 2 1500 (by decide) (by decide))
      (by decide) (by decide) (by decide)).2.2.2.2.2.2.1⟩

/-- Embedding of `Pulse_State` from the receiver header: the per-channel
edge state driving which edge the next capture event represents. -/
inductive Pulse_State where
  | PULSE_LOW
  | PULSE_HIGH
deriving DecidableEq

/-- Embedding of `Receiver_IC_Values_TypeDef` (receiver.c:72-80).
`IsActive` is `ReceiverErrorStatus` in C; `true` stands for `RECEIVER_OK`. -/
structure Receiver_IC_Values where
  PeriodCount : Nat
  RisingCount : Nat
  FallingCounter : Nat
  PreviousRisingCount : Nat
  PreviousRisingCountTimerPeriodCount : Nat
  PulseTimerCount : Nat
  IsActive : Bool
deriving DecidableEq

/-- Modelled from the spec: the `#define` constants of the absent
`receiver.h` (valid pulse/period bounds tolerant of the ~1-2 ms pulses and
~22 ms period, the calibration validation bands of §4.5, the session
timeout of §4.4 and the inactivity threshold of §4.7) kept abstract as
parameters. -/
structure ReceiverParams where
  RECEIVER_MAX_VALID_IC_PULSE_COUNT : Nat
  RECEIVER_MIN_VALID_IC_PULSE_COUNT : Nat
  RECEIVER_MAX_VALID_PERIOD_COUNT : Nat
  RECEIVER_MIN_VALID_PERIOD_COUNT : Nat
  RECEIVER_MAX_CALIBRATION_DURATION : Nat
  RECEIVER_CALIBRATION_MIN_PULSE_COUNT : Nat
  RECEIVER_MAX_CALIBRATION_MAX_PULSE_COUNT : Nat
  RECEIVER_MAX_CALIBRATION_MIN_PULSE_COUNT : Nat
  RECEIVER_MIN_CALIBRATION_MAX_PULSE_COUNT : Nat
  RECEIVER_MIN_CALIBRATION_MIN_PULSE_COUNT : Nat
  IS_RECEIVER_CHANNEL_INACTIVE_PERIODS_COUNT : Nat
deriving DecidableEq

/-- Embedding of `IsReceiverPulseValid` (receiver.c:1407-1412).  The C
period-counter delta `currentPeriodCount - previousPeriodCount` is an
`int` difference of two `uint16_t` values, so it is modelled in `Int`
(a negative delta satisfies `≤ 1`). -/
def IsReceiverPulseValid (P : ReceiverParams)
    (pulseTimerCount currentPeriodCount previousPeriodCount : Nat) : Bool :=
  decide (pulseTimerCount ≤ P.RECEIVER_MAX_VALID_IC_PULSE_COUNT ∧
    P.RECEIVER_MIN_VALID_IC_PULSE_COUNT ≤ pulseTimerCount ∧
    (currentPeriodCount : Int) - (previousPeriodCount : Int) ≤ 1)

/-- Embedding of `IsReceiverPeriodValid` (receiver.c:1419-1422). -/
def IsReceiverPeriodValid (P : ReceiverParams) (periodTimerCount : Nat) : Bool :=
  decide (periodTimerCount ≤ P.RECEIVER_MAX_VALID_PERIOD_COUNT ∧
    P.RECEIVER_MIN_VALID_PERIOD_COUNT ≤ periodTimerCount)

/-- Embedding of the pulse-width computation at receiver.c:1237: the
`uint16_t` difference `FallingCounter - RisingCount`, i.e. the 16-bit
wrapped difference. -/
def pulseWidthCount (falling rising : Nat) : Nat :=
  (65536 + falling - rising) % 65536

/-- Result of one `UpdateReceiverChannel` invocation: the new edge state,
the new channel capture state, the (possibly timed-out) calibration
session flag, the (possibly updated) sampling window and the returned
`ReceiverErrorStatus` (`true` = `RECEIVER_OK`). -/
structure UpdateReceiverChannelResult where
  channelInputState : Pulse_State
  icValues : Receiver_IC_Values
  receiverCalibrationState : Bool
  sampling : Receiver_ChannelCalibrationSampling
  status : Bool
deriving DecidableEq

/-- Embedding of `UpdateReceiverChannel` (receiver.c:1186-1261).
`icValue` is the value read from the capture register (stored into the
`uint16_t` fields, hence `% 2^16`); `ReceiverTimerPeriodCount` is the
period counter of the channel's timer; `receiverCalibrationState` is
`true` for `RECEIVER_CALIBRATION_IN_PROGRESS`; `tickNow` is `HAL_GetTick()`.
The hardware polarity toggle at receiver.c:1258 touches only timer
registers and has no effect on this state. -/
def UpdateReceiverChannel (P : ReceiverParams) (channelInputState : Pulse_State)
    (ic : Receiver_IC_Values) (icValue : Nat) (ReceiverTimerPeriodCount : Nat)
    (receiverCalibrationState : Bool) (calibrationStartTime tickNow : Nat)
    (cs : Receiver_ChannelCalibrationSampling) : UpdateReceiverChannelResult :=
  match channelInputState with
  | .PULSE_LOW =>
    let ic1 : Receiver_IC_Values :=
      { ic with PreviousRisingCount := ic.RisingCount, RisingCount := icValue % 65536 }
    let temp := tempPeriodTimerCount ic1.RisingCount ic1.PreviousRisingCount
      ReceiverTimerPeriodCount ic1.PreviousRisingCountTimerPeriodCount
    let ok := IsReceiverPeriodValid P temp
    let ic2 : Receiver_IC_Values := if ok then { ic1 with PeriodCount := temp } else ic1
    let ic3 : Receiver_IC_Values :=
      { ic2 with PreviousRisingCountTimerPeriodCount := ReceiverTimerPeriodCount }
    ⟨.PULSE_HIGH, ic3, receiverCalibrationState, cs, ok⟩
  | .PULSE_HIGH =>
    let ic1 : Receiver_IC_Values := { ic with FallingCounter := icValue % 65536 }
    let temp := pulseWidthCount ic1.FallingCounter ic1.RisingCount
    if IsReceiverPulseValid P temp ReceiverTimerPeriodCount
        ic1.PreviousRisingCountTimerPeriodCount then
      let ic2 : Receiver_IC_Values := { ic1 with PulseTimerCount := temp, IsActive := true }
      if receiverCalibrationState then
        if P.RECEIVER_MAX_CALIBRATION_DURATION + calibrationStartTime < tickNow then
          ⟨.PULSE_LOW, ic2, false, cs, true⟩
        else
          ⟨.PULSE_LOW, ic2, receiverCalibrationState,
            UpdateChannelCalibrationSamples cs temp, true⟩
      else
        ⟨.PULSE_LOW, ic2, receiverCalibrationState, cs, true⟩
    else
      ⟨.PULSE_LOW, ic1, receiverCalibrationState, cs, false⟩

/-- C5: an invalid falling edge leaves `PulseTimerCount` and `IsActive`
untouched, does not invoke the calibration sampler, and returns
`RECEIVER_ERROR` while still flipping the edge state (so decoding of
subsequent edges continues); an invalid period on a rising edge leaves
`PeriodCount` untouched and returns `RECEIVER_ERROR`. -/
theorem updateReceiverChannel_invalid_frame (P : ReceiverParams)
    (st : Pulse_State) (ic : Receiver_IC_Values) (icValue ReceiverTimerPeriodCount : Nat)
    (calibState : Bool) (calibrationStartTime tickNow : Nat)
    (cs : Receiver_ChannelCalibrationSampling) :
    (st = .PULSE_HIGH →
      IsReceiverPulseValid P (pulseWidthCount (icValue % 65536) ic.RisingCount)
        ReceiverTimerPeriodCount ic.PreviousRisingCountTimerPeriodCount = false →
      (UpdateReceiverChannel P st ic icValue ReceiverTimerPeriodCount calibState
          calibrationStartTime tickNow cs).icValues.PulseTimerCount = ic.PulseTimerCount ∧
      (UpdateReceiverChannel P st ic icValue ReceiverTimerPeriodCount calibState
          calibrationStartTime tickNow cs).icValues.IsActive = ic.IsActive ∧
      (UpdateReceiverChannel P st ic icValue ReceiverTimerPeriodCount calibState
          calibrationStartTime tickNow cs).sampling = cs ∧
      (UpdateReceiverChannel P st ic icValue ReceiverTimerPeriodCount calibState
          calibrationStartTime tickNow cs).status = false ∧
      (UpdateReceiverChannel P st ic icValue ReceiverTimerPeriodCount calibState
          calibrationStartTime tickNow cs).channelInputState = .PULSE_LOW) ∧
    (st = .PULSE_LOW →
      IsReceiverPeriodValid P (tempPeriodTimerCount (icValue % 65536) ic.RisingCount
        ReceiverTimerPeriodCount ic.PreviousRisingCountTimerPeriodCount) = false →
      (UpdateReceiverChannel P st ic icValue ReceiverTimerPeriodCount calibState
          calibrationStartTime tickNow cs).icValues.PeriodCount = ic.PeriodCount ∧
      (UpdateReceiverChannel P st ic icValue ReceiverTimerPeriodCount calibState
          calibrationStartTime tickNow cs).status = false) := by
  constructor
  · intro hst hbad
    subst hst
    simp only [UpdateReceiverChannel, hbad, Bool.false_eq_true, if_false]
    exact ⟨trivial, trivial, trivial, trivial, trivial⟩
  · intro hst hbad
    subst hst
    simp only [UpdateReceiverChannel, hbad, Bool.false_eq_true, if_false]
    exact ⟨trivial, trivial⟩

/-- Witness for C5 with a concrete parameter set and channel state: an
out-of-bounds falling pulse and an out-of-bounds rising period both leave
the respective last-known-good values in place and report an error. -/
theorem updateReceiverChannel_invalid_frame_witness :
    ((UpdateReceiverChannel ⟨3000, 100, 50000, 30000, 15000, 10, 2200, 1800, 1200, 800, 5⟩
        .PULSE_HIGH ⟨44000, 1000, 0, 900, 7, 1500, true⟩ 6000 7 false 0 0
        (ResetCalibrationSampling 2 1500)).icValues.PulseTimerCount = 1500 ∧
      (UpdateReceiverChannel ⟨3000, 100, 50000, 30000, 15000, 10, 2200, 1800, 1200, 800, 5⟩
        .PULSE_HIGH ⟨44000, 1000, 0, 900, 7, 1500, true⟩ 6000 7 false 0 0
        (ResetCalibrationSampling 2 1500)).status = false) ∧
    ((UpdateReceiverChannel ⟨3000, 100, 50000, 30000, 15000, 10, 2200, 1800, 1200, 800, 5⟩
        .PULSE_LOW ⟨44000, 1000, 0, 900, 7, 1500, true⟩ 1200 7 false 0 0
        (ResetCalibrationSampling 2 1500)).icValues.PeriodCount = 44000 ∧
      (UpdateReceiverChannel ⟨3000, 100, 50000, 30000, 15000, 10, 2200, 1800, 1200, 800, 5⟩
        .PULSE_LOW ⟨44000, 1000, 0, 900, 7, 1500, true⟩ 1200 7 false 0 0
        (ResetCalibrationSampling 2 1500)).status = false) := by
  constructor
  · have h := (updateReceiverChannel_invalid_frame
      ⟨3000, 100, 50000, 30000, 15000, 10, 2200, 1800, 1200, 800, 5⟩ .PULSE_HIGH
      ⟨44000, 1000, 0, 900, 7, 1500, true⟩ 6000 7 false 0 0
      (ResetCalibrationSampling 2 1500)).1 rfl (by decide)
    exact ⟨h.1, h.2.2.2.1⟩
  · have h := (updateReceiverChannel_invalid_frame
      ⟨3000, 100, 50000, 30000, 15000, 10, 2200, 1800, 1200, 800, 5⟩ .PULSE_LOW
      ⟨44000, 1000, 0, 900, 7, 1500, true⟩ 1200 7 false 0 0
      (ResetCalibrationSampling 2 1500)).2 rfl (by decide)
    exact h

/-- Embedding of `Receiver_IC_ChannelCalibrationValues_TypeDef`: one
channel's committed calibration bounds. -/
structure Receiver_IC_ChannelCalibrationValues where
  ChannelMaxCount : Nat
  ChannelMinCount : Nat
deriving DecidableEq

/-- Embedding of `Receiver_CalibrationValues_TypeDef`: the full six-channel
calibration record. -/
structure Receiver_CalibrationValues where
  ThrottleChannel : Receiver_IC_ChannelCalibrationValues
  AileronChannel : Receiver_IC_ChannelCalibrationValues
  ElevatorChannel : Receiver_IC_ChannelCalibrationValues
  RudderChannel : Receiver_IC_ChannelCalibrationValues
  GearChannel : Receiver_IC_ChannelCalibrationValues
  Aux1Channel : Receiver_IC_ChannelCalibrationValues
deriving DecidableEq

/-- The six per-channel calibration sampling windows read by
`StopReceiverCalibration`. -/
structure ReceiverSamplingSet where
  Throttle : Receiver_ChannelCalibrationSampling
  Aileron : Receiver_ChannelCalibrationSampling
  Elevator : Receiver_ChannelCalibrationSampling
  Rudder : Receiver_ChannelCalibrationSampling
  Gear : Receiver_ChannelCalibrationSampling
  Aux1 : Receiver_ChannelCalibrationSampling
deriving DecidableEq

/-- Modelled from the spec: `UInt16Mean` (declared in the absent
`common.h`) computes the arithmetic mean of a sample buffer (§4.4:
"the arithmetic mean of its extrema buffer"). -/
def UInt16Mean (l : List Nat) : Nat :=
  l.sum / l.length

/-- Embedding of `IsCalibrationMaxPulseValueValid` (receiver.c:1475-1481). -/
def IsCalibrationMaxPulseValueValid (P : ReceiverParams) (maxPulseValue : Nat) : Bool :=
  decide (maxPulseValue ≤ P.RECEIVER_MAX_CALIBRATION_MAX_PULSE_COUNT ∧
    P.RECEIVER_MAX_CALIBRATION_MIN_PULSE_COUNT ≤ maxPulseValue)

/-- Embedding of `IsCalibrationMinPulseValueValid` (receiver.c:1488-1494). -/
def IsCalibrationMinPulseValueValid (P : ReceiverParams) (minPulseValue : Nat) : Bool :=
  decide (minPulseValue ≤ P.RECEIVER_MIN_CALIBRATION_MAX_PULSE_COUNT ∧
    P.RECEIVER_MIN_CALIBRATION_MIN_PULSE_COUNT ≤ minPulseValue)

/-- Embedding of `IsCalibrationValuesValid` (receiver.c:1429-1468): all
twelve bounds must pass their band check. -/
def IsCalibrationValuesValid (P : ReceiverParams) (cv : Receiver_CalibrationValues) : Bool :=
  IsCalibrationMaxPulseValueValid P cv.ThrottleChannel.ChannelMaxCount &&
  IsCalibrationMinPulseValueValid P cv.ThrottleChannel.ChannelMinCount &&
  IsCalibrationMaxPulseValueValid P cv.AileronChannel.ChannelMaxCount &&
  IsCalibrationMinPulseValueValid P cv.AileronChannel.ChannelMinCount &&
  IsCalibrationMaxPulseValueValid P cv.ElevatorChannel.ChannelMaxCount &&
  IsCalibrationMinPulseValueValid P cv.ElevatorChannel.ChannelMinCount &&
  IsCalibrationMaxPulseValueValid P cv.RudderChannel.ChannelMaxCount &&
  IsCalibrationMinPulseValueValid P cv.RudderChannel.ChannelMinCount &&
  IsCalibrationMaxPulseValueValid P cv.GearChannel.ChannelMaxCount &&
  IsCalibrationMinPulseValueValid P cv.GearChannel.ChannelMinCount &&
  IsCalibrationMaxPulseValueValid P cv.Aux1Channel.ChannelMaxCount &&
  IsCalibrationMinPulseValueValid P cv.Aux1Channel.ChannelMinCount

/-- The aggregated calibration record computed by `StopReceiverCalibration`
(receiver.c:645-669): per channel, the mean of the max buffer and the mean
of the min buffer. -/
def aggregatedCalibrationValues (samp : ReceiverSamplingSet) : Receiver_CalibrationValues :=
  { ThrottleChannel := ⟨UInt16Mean samp.Throttle.maxSamplesBuffer,
      UInt16Mean samp.Throttle.minSamplesBuffer⟩,
    AileronChannel := ⟨UInt16Mean samp.Aileron.maxSamplesBuffer,
      UInt16Mean samp.Aileron.minSamplesBuffer⟩,
    ElevatorChannel := ⟨UInt16Mean samp.Elevator.maxSamplesBuffer,
      UInt16Mean samp.Elevator.minSamplesBuffer⟩,
    RudderChannel := ⟨UInt16Mean samp.Rudder.maxSamplesBuffer,
      UInt16Mean samp.Rudder.minSamplesBuffer⟩,
    GearChannel := ⟨UInt16Mean samp.Gear.maxSamplesBuffer,
      UInt16Mean samp.Gear.minSamplesBuffer⟩,
    Aux1Channel := ⟨UInt16Mean samp.Aux1.maxSamplesBuffer,
      UInt16Mean samp.Aux1.minSamplesBuffer⟩ }

/-- Whether every channel collected at least
`RECEIVER_CALIBRATION_MIN_PULSE_COUNT` accepted samples
(receiver.c:630-642: any shortfall forces `RECEIVER_ERROR`). -/
def allChannelsSampledEnough (P : ReceiverParams) (samp : ReceiverSamplingSet) : Bool :=
  decide (P.RECEIVER_CALIBRATION_MIN_PULSE_COUNT ≤ samp.Throttle.channelCalibrationPulseSamples ∧
    P.RECEIVER_CALIBRATION_MIN_PULSE_COUNT ≤ samp.Aileron.channelCalibrationPulseSamples ∧
    P.RECEIVER_CALIBRATION_MIN_PULSE_COUNT ≤ samp.Elevator.channelCalibrationPulseSamples ∧
    P.RECEIVER_CALIBRATION_MIN_PULSE_COUNT ≤ samp.Rudder.channelCalibrationPulseSamples ∧
    P.RECEIVER_CALIBRATION_MIN_PULSE_COUNT ≤ samp.Gear.channelCalibrationPulseSamples ∧
    P.RECEIVER_CALIBRATION_MIN_PULSE_COUNT ≤ samp.Aux1.channelCalibrationPulseSamples)

/-- Result of `StopReceiverCalibration`: the returned status (`true` =
`RECEIVER_OK`), the session state (`true` = `IN_PROGRESS`), the sampling
windows (never written by the function) and the live committed
calibration. -/
structure StopReceiverCalibrationResult where
  status : Bool
  receiverCalibrationState : Bool
  sampling : ReceiverSamplingSet
  CalibrationValues : Receiver_CalibrationValues
deriving DecidableEq

/-- Embedding of `StopReceiverCalibration` (receiver.c:625-697).  If a
session is in progress: the status is `RECEIVER_ERROR` unless every channel
reached the minimum sample count and the aggregated means pass validation;
on success the aggregate is installed (`EnforceNewCalibrationValues`,
receiver.c:1501-1514), otherwise the live record is untouched; the session
state always returns to `RECEIVER_CALIBRATION_WAITING`.  Without a session
in progress the call is a failing no-op.  (The flash write at
receiver.c:677 only selects a diagnostic message and does not affect this
state.) -/
def StopReceiverCalibration (P : ReceiverParams) (receiverCalibrationState : Bool)
    (samp : ReceiverSamplingSet) (CalibrationValues : Receiver_CalibrationValues) :
    StopReceiverCalibrationResult :=
  if receiverCalibrationState then
    let returnStatus := allChannelsSampledEnough P samp &&
      IsCalibrationValuesValid P (aggregatedCalibrationValues samp)
    ⟨returnStatus, false, samp,
      if returnStatus then aggregatedCalibrationValues samp else CalibrationValues⟩
  else
    ⟨false, receiverCalibrationState, samp, CalibrationValues⟩

/-- C7: stopping an in-progress calibration while at least one channel is
below the minimum sample threshold returns `RECEIVER_ERROR`, leaves the
live committed calibration unchanged, and still moves the session state
back to waiting. -/
theorem stopReceiverCalibration_undersampled (P : ReceiverParams)
    (samp : ReceiverSamplingSet) (live : Receiver_CalibrationValues)
    (hshort : samp.Throttle.channelCalibrationPulseSamples < P.RECEIVER_CALIBRATION_MIN_PULSE_COUNT ∨
      samp.Aileron.channelCalibrationPulseSamples < P.RECEIVER_CALIBRATION_MIN_PULSE_COUNT ∨
      samp.Elevator.channelCalibrationPulseSamples < P.RECEIVER_CALIBRATION_MIN_PULSE_COUNT ∨
      samp.Rudder.channelCalibrationPulseSamples < P.RECEIVER_CALIBRATION_MIN_PULSE_COUNT ∨
      samp.Gear.channelCalibrationPulseSamples < P.RECEIVER_CALIBRATION_MIN_PULSE_COUNT ∨
      samp.Aux1.channelCalibrationPulseSamples < P.RECEIVER_CALIBRATION_MIN_PULSE_COUNT) :
    (StopReceiverCalibration P true samp live).status = false ∧
    (StopReceiverCalibration P true samp live).CalibrationValues = live ∧
    (StopReceiverCalibration P true samp live).receiverCalibrationState = false := by
  have henough : allChannelsSampledEnough P samp = false := by
    unfold allChannelsSampledEnough
    rcases hshort with h | h | h | h | h | h <;>
      simp only [decide_eq_false_iff_not] <;> omega
  simp only [StopReceiverCalibration, henough, Bool.false_and, if_true, if_false,
    Bool.false_eq_true]
  exact ⟨trivial, trivial, trivial⟩

/-- Witness for C7: a session whose throttle channel collected no samples. -/
theorem stopReceiverCalibration_undersampled_witness :
    (StopReceiverCalibration ⟨3000, 100, 50000, 30000, 15000, 10, 2200, 1800, 1200, 800, 5⟩
      true ⟨ResetCalibrationSampling 2 1500, ResetCalibrationSampling 2 1500,
        ResetCalibrationSampling 2 1500, ResetCalibrationSampling 2 1500,
        ResetCalibrationSampling 2 1500, ResetCalibrationSampling 2 1500⟩
      ⟨⟨2000, 1000⟩, ⟨2000, 1000⟩, ⟨2000, 1000⟩, ⟨2000, 1000⟩, ⟨2000, 1000⟩, ⟨2000, 1000⟩⟩).status
        = false ∧
    (StopReceiverCalibration ⟨3000, 100, 50000, 30000, 15000, 10, 2200, 1800, 1200, 800, 5⟩
      true ⟨ResetCalibrationSampling 2 1500, ResetCalibrationSampling 2 1500,
        ResetCalibrationSampling 2 1500, ResetCalibrationSampling 2 1500,
        ResetCalibrationSampling 2 1500, ResetCalibrationSampling 2 1500⟩
      ⟨⟨2000, 1000⟩, ⟨2000, 1000⟩, ⟨2000, 1000⟩, ⟨2000, 1000⟩, ⟨2000, 1000⟩, ⟨2000, 1000⟩⟩).CalibrationValues
        = ⟨⟨2000, 1000⟩, ⟨2000, 1000⟩, ⟨2000, 1000⟩, ⟨2000, 1000⟩, ⟨2000, 1000⟩, ⟨2000, 1000⟩⟩ := by
  have h := stopReceiverCalibration_undersampled
    ⟨3000, 100, 50000, 30000, 15000, 10, 2200, 1800, 1200, 800, 5⟩
    ⟨ResetCalibrationSampling 2 1500, ResetCalibrationSampling 2 1500,
      ResetCalibrationSampling 2 1500, ResetCalibrationSampling 2 1500,
      ResetCalibrationSampling 2 1500, ResetCalibrationSampling 2 1500⟩
    ⟨⟨2000, 1000⟩, ⟨2000, 1000⟩, ⟨2000, 1000⟩, ⟨2000, 1000⟩, ⟨2000, 1000⟩, ⟨2000, 1000⟩⟩
    (Or.inl (by decide))
  exact ⟨h.1, h.2.1⟩

/-- C8: when a valid falling-edge pulse is processed after the session has
outlived `RECEIVER_MAX_CALIBRATION_DURATION`, the decoder reverts the
session state to waiting without forwarding the sample to the calibration
sampler; a subsequent `StopReceiverCalibration` call then returns
`RECEIVER_ERROR` and changes neither the sampling windows nor the
committed calibration. -/
theorem calibrationTimeout_reverts_and_stop_fails (P : ReceiverParams)
    (ic : Receiver_IC_Values) (icValue ReceiverTimerPeriodCount : Nat)
    (calibrationStartTime tickNow : Nat) (cs : Receiver_ChannelCalibrationSampling)
    (samp : ReceiverSamplingSet) (live : Receiver_CalibrationValues)
    (hvalid : IsReceiverPulseValid P (pulseWidthCount (icValue % 65536) ic.RisingCount)
      ReceiverTimerPeriodCount ic.PreviousRisingCountTimerPeriodCount = true)
    (htimeout : P.RECEIVER_MAX_CALIBRATION_DURATION + calibrationStartTime < tickNow) :
    (UpdateReceiverChannel P .PULSE_HIGH ic icValue ReceiverTimerPeriodCount true
      calibrationStartTime tickNow cs).receiverCalibrationState = false ∧
    (UpdateReceiverChannel P .PULSE_HIGH ic icValue ReceiverTimerPeriodCount true
      calibrationStartTime tickNow cs).sampling = cs ∧
    StopReceiverCalibration P
      (UpdateReceiverChannel P .PULSE_HIGH ic icValue ReceiverTimerPeriodCount true
        calibrationStartTime tickNow cs).receiverCalibrationState samp live =
      ⟨false, false, samp, live⟩ := by
  simp only [UpdateReceiverChannel, hvalid, if_true, if_pos htimeout]
  refine ⟨trivial, trivial, ?_⟩
  simp [StopReceiverCalibration]

/-- Witness for C8 at a concrete timed-out session: a valid pulse of 1500
ticks arriving at tick 20000 with a session started at tick 0 and a 15000
tick ceiling. -/
theorem calibrationTimeout_reverts_and_stop_fails_witness :
    (UpdateReceiverChannel ⟨3000, 100, 50000, 30000, 15000, 10, 2200, 1800, 1200, 800, 5⟩
      .PULSE_HIGH ⟨44000, 1000, 0, 900, 7, 1500, true⟩ 2500 7 true 0 20000
      (ResetCalibrationSampling 2 1500)).receiverCalibrationState = false ∧
    (UpdateReceiverChannel ⟨3000, 100, 50000, 30000, 15000, 10, 2200, 1800, 1200, 800, 5⟩
      .PULSE_HIGH ⟨44000, 1000, 0, 900, 7, 1500, true⟩ 2500 7 true 0 20000
      (ResetCalibrationSampling 2 1500)).sampling = ResetCalibrationSampling 2 1500 ∧
    StopReceiverCalibration ⟨3000, 100, 50000, 30000, 15000, 10, 2200, 1800, 1200, 800, 5⟩
      (UpdateReceiverChannel ⟨3000, 100, 50000, 30000, 15000, 10, 2200, 1800, 1200, 800, 5⟩
        .PULSE_HIGH ⟨44000, 1000, 0, 900, 7, 1500, true⟩ 2500 7 true 0 20000
        (ResetCalibrationSampling 2 1500)).receiverCalibrationState
      ⟨ResetCalibrationSampling 2 1500, ResetCalibrationSampling 2 1500,
        ResetCalibrationSampling 2 1500, ResetCalibrationSampling 2 1500,
        ResetCalibrationSampling 2 1500, ResetCalibrationSampling 2 1500⟩
      ⟨⟨2000, 1000⟩, ⟨2000, 1000⟩, ⟨2000, 1000⟩, ⟨2000, 1000⟩, ⟨2000, 1000⟩, ⟨2000, 1000⟩⟩ =
      ⟨false, false,
        ⟨ResetCalibrationSampling 2 1500, ResetCalibrationSampling 2 1500,
          ResetCalibrationSampling 2 1500, ResetCalibrationSampling 2 1500,
          ResetCalibrationSampling 2 1500, ResetCalibrationSampling 2 1500⟩,
        ⟨⟨2000, 1000⟩, ⟨2000, 1000⟩, ⟨2000, 1000⟩, ⟨2000, 1000⟩, ⟨2000, 1000⟩, ⟨2000, 1000⟩⟩⟩ :=
  calibrationTimeout_reverts_and_stop_fails
    ⟨3000, 100, 50000, 30000, 15000, 10, 2200, 1800, 1200, 800, 5⟩
    ⟨44000, 1000, 0, 900, 7, 1500, true⟩ 2500 7 0 20000 (ResetCalibrationSampling 2 1500)
    ⟨ResetCalibrationSampling 2 1500, ResetCalibrationSampling 2 1500,
      ResetCalibrationSampling 2 1500, ResetCalibrationSampling 2 1500,
      ResetCalibrationSampling 2 1500, ResetCalibrationSampling 2 1500⟩
    ⟨⟨2000, 1000⟩, ⟨2000, 1000⟩, ⟨2000, 1000⟩, ⟨2000, 1000⟩, ⟨2000, 1000⟩, ⟨2000, 1000⟩⟩
    (by decide) (by decide)

/-- Embedding of `IsReceiverChannelActive` (receiver.c:1386-1398): the
period-counter delta since the channel's last rising edge (computed with
the same `uint16_t`-to-`uint32_t` wrapped subtraction as the C code) is
compared with the inactivity threshold; on overrun the cached `IsActive`
flag is lazily cleared, and the (possibly cleared) flag is returned. -/
def IsReceiverChannelActive (P : ReceiverParams) (ic : Receiver_IC_Values)
    (ReceiverTimerPeriodCount : Nat) : Bool × Receiver_IC_Values :=
  if P.IS_RECEIVER_CHANNEL_INACTIVE_PERIODS_COUNT <
      u16SubU32 ReceiverTimerPeriodCount ic.PreviousRisingCountTimerPeriodCount then
    (false, { ic with IsActive := false })
  else
    (ic.IsActive, ic)

/-- The global per-channel capture state read by `IsReceiverActive`: the
six `Receiver_IC_Values_TypeDef` statics and the two timer period
counters (receiver.c:119-141). -/
structure ReceiverICState where
  ThrottleICValues : Receiver_IC_Values
  AileronICValues : Receiver_IC_Values
  ElevatorICValues : Receiver_IC_Values
  RudderICValues : Receiver_IC_Values
  GearICValues : Receiver_IC_Values
  Aux1ICValues : Receiver_IC_Values
  PrimaryReceiverTimerPeriodCount : Nat
  AuxReceiverTimerPeriodCount : Nat
deriving DecidableEq

/-- Embedding of `IsReceiverActive` (receiver.c:704-717): the conjunction
of the aileron, elevator and rudder channel activity checks against the
primary timer's period counter (throttle keeps pulsing after link loss on
this receiver, so it is excluded from the vote). -/
def IsReceiverActive (P : ReceiverParams) (s : ReceiverICState) : Bool × ReceiverICState :=
  ((IsReceiverChannelActive P s.AileronICValues s.PrimaryReceiverTimerPeriodCount).1 &&
    (IsReceiverChannelActive P s.ElevatorICValues s.PrimaryReceiverTimerPeriodCount).1 &&
    (IsReceiverChannelActive P s.RudderICValues s.PrimaryReceiverTimerPeriodCount).1,
   { s with
      AileronICValues :=
        (IsReceiverChannelActive P s.AileronICValues s.PrimaryReceiverTimerPeriodCount).2,
      ElevatorICValues :=
        (IsReceiverChannelActive P s.ElevatorICValues s.PrimaryReceiverTimerPeriodCount).2,
      RudderICValues :=
        (IsReceiverChannelActive P s.RudderICValues s.PrimaryReceiverTimerPeriodCount).2 })

lemma isReceiverChannelActive_iff (P : ReceiverParams) (ic : Receiver_IC_Values) (pc : Nat) :
    (IsReceiverChannelActive P ic pc).1 = true ↔
      (u16SubU32 pc ic.PreviousRisingCountTimerPeriodCount ≤
        P.IS_RECEIVER_CHANNEL_INACTIVE_PERIODS_COUNT ∧ ic.IsActive = true) := by
  unfold IsReceiverChannelActive
  by_cases h : P.IS_RECEIVER_CHANNEL_INACTIVE_PERIODS_COUNT <
      u16SubU32 pc ic.PreviousRisingCountTimerPeriodCount
  · rw [if_pos h]
    constructor
    · intro hfalse
      exact absurd hfalse (by simp)
    · rintro ⟨hle, -⟩
      omega
  · rw [if_neg h]
    constructor
    · intro ha
      exact ⟨le_of_not_lt h, ha⟩
    · rintro ⟨-, ha⟩
      exact ha

/-- C9: `IsReceiverActive` returns true iff the aileron, elevator and
rudder channels are each individually active (cached `IsActive` flag set
and period-counter delta within the inactivity threshold); the throttle,
gear and aux1 channel states and the aux timer counter have no influence
on the result. -/
theorem isReceiverActive_vote (P : ReceiverParams) (s : ReceiverICState) :
    ((IsReceiverActive P s).1 = true ↔
      ((u16SubU32 s.PrimaryReceiverTimerPeriodCount
          s.AileronICValues.PreviousRisingCountTimerPeriodCount ≤
          P.IS_RECEIVER_CHANNEL_INACTIVE_PERIODS_COUNT ∧
          s.AileronICValues.IsActive = true) ∧
        (u16SubU32 s.PrimaryReceiverTimerPeriodCount
          s.ElevatorICValues.PreviousRisingCountTimerPeriodCount ≤
          P.IS_RECEIVER_CHANNEL_INACTIVE_PERIODS_COUNT ∧
          s.ElevatorICValues.IsActive = true) ∧
        (u16SubU32 s.PrimaryReceiverTimerPeriodCount
          s.RudderICValues.PreviousRisingCountTimerPeriodCount ≤
          P.IS_RECEIVER_CHANNEL_INACTIVE_PERIODS_COUNT ∧
          s.RudderICValues.IsActive = true))) ∧
    (∀ t : ReceiverICState, t.AileronICValues = s.AileronICValues →
      t.ElevatorICValues = s.ElevatorICValues → t.RudderICValues = s.RudderICValues →
      t.PrimaryReceiverTimerPeriodCount = s.PrimaryReceiverTimerPeriodCount →
      (IsReceiverActive P t).1 = (IsReceiverActive P s).1) := by
  constructor
  · show ((IsReceiverChannelActive P s.AileronICValues s.PrimaryReceiverTimerPeriodCount).1 &&
      (IsReceiverChannelActive P s.ElevatorICValues s.PrimaryReceiverTimerPeriodCount).1 &&
      (IsReceiverChannelActive P s.RudderICValues s.PrimaryReceiverTimerPeriodCount).1) = true ↔ _
    rw [Bool.and_eq_true, Bool.and_eq_true, isReceiverChannelActive_iff,
      isReceiverChannelActive_iff, isReceiverChannelActive_iff]
    exact and_assoc
  · intro t h1 h2 h3 h4
    show ((IsReceiverChannelActive P t.AileronICValues t.PrimaryReceiverTimerPeriodCount).1 &&
      (IsReceiverChannelActive P t.ElevatorICValues t.PrimaryReceiverTimerPeriodCount).1 &&
      (IsReceiverChannelActive P t.RudderICValues t.PrimaryReceiverTimerPeriodCount).1) = _
    rw [h1, h2, h3, h4]
    rfl

/-- Witness for C9 at a concrete state in which aileron, elevator and
rudder are all within the threshold: the link is reported active. -/
theorem isReceiverActive_vote_witness :
    (IsReceiverActive ⟨3000, 100, 50000, 30000, 15000, 10, 2200, 1800, 1200, 800, 5⟩
      ⟨⟨44000, 1000, 0, 900, 7, 1500, true⟩, ⟨44000, 1000, 0, 900, 7, 1500, true⟩,
        ⟨44000, 1000, 0, 900, 7, 1500, true⟩, ⟨44000, 1000, 0, 900, 7, 1500, true⟩,
        ⟨44000, 1000, 0, 900, 7, 1500, true⟩, ⟨44000, 1000, 0, 900, 7, 1500, true⟩,
        9, 3⟩).1 = true :=
  (isReceiverActive_vote ⟨3000, 100, 50000, 30000, 15000, 10, 2200, 1800, 1200, 800, 5⟩
      ⟨⟨44000, 1000, 0, 900, 7, 1500, true⟩, ⟨44000, 1000, 0, 900, 7, 1500, true⟩,
        ⟨44000, 1000, 0, 900, 7, 1500, true⟩, ⟨44000, 1000, 0, 900, 7, 1500, true⟩,
        ⟨44000, 1000, 0, 900, 7, 1500, true⟩, ⟨44000, 1000, 0, 900, 7, 1500, true⟩,
        9, 3⟩).1.mpr (by decide)
